import Mathlib

/-!
# Verification of `VisionCommandGroup`

A shallow embedding of `sentio_prober_control/Sentio/CommandGroups/VisionCommandGroup.py`.
Each public method of the Python class is modelled by

* a *command/trace* function giving the exact sequence of channel operations
  (command lines sent, response lines read, local files written) the method
  performs, and
* a *run/parse* function mapping the instrument's response to the method's
  return value or raised exception.

Python builtins used by the source (`str.split`, `str.strip`, `str.upper`,
`str.lower`, `float`, `base64.b64decode`, bool formatting) are modelled
explicitly below; collaborator classes of the repository that are not part of
the analysed file (`Response`, the enumerations) are modelled from the spec and
marked as such in their doc comments.
-/

namespace SentioVis

/-! ## Models of Python string builtins -/

/-- Modelled from Python's notion of whitespace for `str.strip()` (ASCII range):
space, tab, newline, carriage return, vertical tab and form feed. -/
def isPySpace (c : Char) : Bool :=
  c = ' ' || c = '\t' || c = '\n' || c = '\r' || c = Char.ofNat 11 || c = Char.ofNat 12

/-- Modelled from Python's `str.split(sep)` with a one-character separator:
splitting never drops empty fields, and the empty string yields `[[]]`. -/
def splitOnChar (sep : Char) : List Char → List (List Char)
  | [] => [[]]
  | c :: rest =>
    match splitOnChar sep rest with
    | [] => [[]]
    | cur :: done => if c = sep then [] :: cur :: done else (c :: cur) :: done

/-- `str.split(sep)` lifted to `String`. -/
def pySplit (sep : Char) (s : String) : List String :=
  (splitOnChar sep s.data).map (fun l => ⟨l⟩)

/-- The list-level part of Python's `str.strip()`: drop leading and trailing
whitespace characters. -/
def stripList (l : List Char) : List Char :=
  ((l.dropWhile isPySpace).reverse.dropWhile isPySpace).reverse

/-- Modelled from Python's `str.strip()` (ASCII whitespace). -/
def pyStrip (s : String) : String := ⟨stripList s.data⟩

/-- Modelled from Python's `str.upper()` on ASCII text (the payloads at issue
are ASCII tokens). -/
def pyUpper (s : String) : String := ⟨s.data.map Char.toUpper⟩

/-- Modelled from Python's `str.lower()` on ASCII text. -/
def pyLower (s : String) : String := ⟨s.data.map Char.toLower⟩

/-- Modelled from Python's default string formatting of `bool` values
(`f"{b}"` gives `"True"` or `"False"`). -/
def pyBoolStr (b : Bool) : String := if b then "True" else "False"

/-- Value of a list of decimal digit characters. -/
def digitsToNat (l : List Char) : Nat := l.foldl (fun a c => a * 10 + (c.toNat - 48)) 0

/-- Modelled from Python's `float` builtin on finite decimal literals:
surrounding whitespace is stripped, an optional sign is followed by digits with
an optional fractional part; anything else is rejected. Parsed values are kept
as exact rationals, built with `mkRat` so that they evaluate by kernel
reduction (the claims under scrutiny only concern parse success and decimal
values, not binary rounding). -/
def pyFloat? (s : String) : Option ℚ :=
  let l := stripList s.data
  let signed : Int × List Char :=
    match l with
    | '+' :: rest => (1, rest)
    | '-' :: rest => (-1, rest)
    | _ => (1, l)
  let intPart := signed.2.takeWhile Char.isDigit
  match signed.2.dropWhile Char.isDigit with
  | [] =>
    if intPart.isEmpty then none
    else some (mkRat (signed.1 * digitsToNat intPart) 1)
  | '.' :: frac =>
    if frac.dropWhile Char.isDigit = [] then
      if intPart.isEmpty && frac.isEmpty then none
      else some (mkRat
        (signed.1 * (digitsToNat intPart * 10 ^ frac.length + digitsToNat frac))
        (10 ^ frac.length))
    else none
  | _ => none

/-! ## Exceptions and the response primitive -/

/-- Structural decidable equality for `Except`, so that witnesses can be
checked by `decide`. -/
instance exceptDecEq {ε α : Type} [DecidableEq ε] [DecidableEq α] :
    DecidableEq (Except ε α) := fun a b =>
  match a, b with
  | .ok x, .ok y =>
    match decEq x y with
    | isTrue h => isTrue (by rw [h])
    | isFalse h => isFalse (by intro hc; cases hc; exact h rfl)
  | .error x, .error y =>
    match decEq x y with
    | isTrue h => isTrue (by rw [h])
    | isFalse h => isFalse (by intro hc; cases hc; exact h rfl)
  | .ok _, .error _ => isFalse (by intro hc; cases hc)
  | .error _, .ok _ => isFalse (by intro hc; cases hc)

/-- The exceptions the embedded methods can raise: the domain exception
(`ProberException`), Python's `ValueError` from a failed `float(...)`
conversion (carrying the offending argument), and Python's `IndexError` from an
out-of-range list subscript. -/
inductive PyError where
  | proberException (msg : String)
  | valueError (arg : String)
  | indexError
  deriving DecidableEq, Repr

/-- Modelled from the spec: a parsed response line of the `Response` class
(which is not under `src/`), reduced to what the analysed methods consume — a
success/failure status flag and the message payload. -/
structure Response where
  ok : Bool
  msg : String
  deriving DecidableEq, Repr

/-- Modelled from the spec: the shared response-check primitive
`Response.check_resp` (not under `src/`) raises the domain exception carrying
the instrument's message text when the status reports failure, and returns the
response unchanged on success. -/
def check_resp (r : Response) : Except PyError Response :=
  if r.ok then .ok r else .error (.proberException r.msg)

/-- Python `float(s)`, raising `ValueError` on unparsable input. -/
def pyFloat (s : String) : Except PyError ℚ :=
  match pyFloat? s with
  | some q => .ok q
  | none => .error (.valueError s)

/-- Python list subscript `l[i]`, raising `IndexError` when out of range. -/
def pyIndex {α : Type} (l : List α) (i : Nat) : Except PyError α :=
  match l[i]? with
  | some a => .ok a
  | none => .error .indexError

/-! ## Helper lemmas on the string models -/

theorem dropWhile_eq_self_of_all {p : Char → Bool} {l : List Char}
    (h : ∀ c ∈ l, p c = false) : l.dropWhile p = l := by
  cases l with
  | nil => rfl
  | cons a l => simp [List.dropWhile, h a (by simp)]

theorem dropWhile_append_of_all {p : Char → Bool} {ws l : List Char}
    (h : ∀ c ∈ ws, p c = true) : (ws ++ l).dropWhile p = l.dropWhile p := by
  induction ws with
  | nil => rfl
  | cons a ws ih =>
    simp only [List.cons_append, List.dropWhile, h a (by simp)]
    exact ih (fun c hc => h c (by simp [hc]))

theorem stripList_eq_self_of_all {l : List Char}
    (h : ∀ c ∈ l, isPySpace c = false) : stripList l = l := by
  unfold stripList
  rw [dropWhile_eq_self_of_all h,
    dropWhile_eq_self_of_all (fun c hc => h c (List.mem_reverse.mp hc)),
    List.reverse_reverse]

theorem stripList_surrounded {ws1 ws2 : List Char}
    (h1 : ∀ c ∈ ws1, isPySpace c = true) (h2 : ∀ c ∈ ws2, isPySpace c = true) :
    stripList (ws1 ++ '1' :: ws2) = ['1'] := by
  unfold stripList
  rw [dropWhile_append_of_all h1]
  have hone : isPySpace '1' = false := by decide
  simp only [List.dropWhile, hone, List.reverse_cons]
  rw [dropWhile_append_of_all (fun c hc => h2 c (List.mem_reverse.mp hc))]
  simp [List.dropWhile, hone]

theorem toNat_ofNat_valid (n : Nat) (h : n.isValidChar) : (Char.ofNat n).toNat = n := by
  unfold Char.ofNat
  rw [dif_pos h]
  rfl

theorem toUpper_eq_one {c : Char} (h : c.toUpper = '1') : c = '1' := by
  simp only [Char.toUpper] at h
  by_cases hc : c.toNat ≥ 97 ∧ c.toNat ≤ 122
  · rw [if_pos hc] at h
    exfalso
    have hv : (c.toNat - 32).isValidChar := by left; omega
    have h49 := congrArg Char.toNat h
    rw [toNat_ofNat_valid _ hv] at h49
    have hone : ('1' : Char).toNat = 49 := rfl
    omega
  · rwa [if_neg hc] at h

theorem toLower_eq_one {c : Char} (h : c.toLower = '1') : c = '1' := by
  simp only [Char.toLower] at h
  by_cases hc : c.toNat ≥ 65 ∧ c.toNat ≤ 90
  · rw [if_pos hc] at h
    exfalso
    have hv : (c.toNat + 32).isValidChar := by left; omega
    have h49 := congrArg Char.toNat h
    rw [toNat_ofNat_valid _ hv] at h49
    have hone : ('1' : Char).toNat = 49 := rfl
    omega
  · rwa [if_neg hc] at h

theorem map_eq_one_iff {f : Char → Char} (hf : ∀ c, f c = '1' → c = '1')
    (hone : f '1' = '1') (l : List Char) : l.map f = ['1'] ↔ l = ['1'] := by
  constructor
  · intro h
    cases l with
    | nil => simp at h
    | cons a l =>
      cases l with
      | nil => simp_all [hf a]
      | cons b l => simp at h
  · intro h; simp [h, hone]

theorem pyUpper_eq_one_iff (s : String) : pyUpper s = "1" ↔ s = "1" := by
  have h1 : ("1" : String).data = ['1'] := rfl
  constructor
  · intro h
    have hd := congrArg String.data h
    simp only [pyUpper, h1] at hd
    have := (map_eq_one_iff (fun c => toUpper_eq_one) rfl s.data).mp hd
    cases s; simp_all
  · intro h; subst h; rfl

theorem pyLower_eq_one_iff (s : String) : pyLower s = "1" ↔ s = "1" := by
  have h1 : ("1" : String).data = ['1'] := rfl
  constructor
  · intro h
    have hd := congrArg String.data h
    simp only [pyLower, h1] at hd
    have := (map_eq_one_iff (fun c => toLower_eq_one) rfl s.data).mp hd
    cases s; simp_all
  · intro h; subst h; rfl

/-! ## Enumerations and base64 (collaborators of the analysed file) -/

/-- Modelled from the spec: the `AutoAlignCmd` enumeration (`Enumerations.py`
is not under `src/`). Each value carries a canonical wire string via
`to_string`; the claims depend only on `to_string` abstractly, so the
constructor set and strings are representative. -/
inductive AutoAlignCmd where
  | AlignOnly
  | UpdateDieSize
  | TwoPoint
  | AutoTwoPoint
  deriving DecidableEq, Repr

def AutoAlignCmd.to_string : AutoAlignCmd → String
  | .AlignOnly => "alignonly"
  | .UpdateDieSize => "update"
  | .TwoPoint => "2pt"
  | .AutoTwoPoint => "auto"

/-- Modelled from the spec: the `CameraMountPoint` enumeration (not under
`src/`), e.g. `"scope"`, `"offaxis"` per the source docstrings. -/
inductive CameraMountPoint where
  | Scope
  | OffAxis
  | Chuck
  deriving DecidableEq, Repr

def CameraMountPoint.to_string : CameraMountPoint → String
  | .Scope => "scope"
  | .OffAxis => "offaxis"
  | .Chuck => "chuck"

/-- Modelled from the spec: the `SnapshotType` enumeration (not under `src/`). -/
inductive SnapshotType where
  | CameraRaw
  | CameraWithOverlays
  deriving DecidableEq, Repr

def SnapshotType.to_string : SnapshotType → String
  | .CameraRaw => "0"
  | .CameraWithOverlays => "1"

/-- Modelled from the spec: the `SnapshotLocation` enumeration (not under
`src/`); `Prober` stores the file on the instrument computer, `Local` requests
an inline download. -/
inductive SnapshotLocation where
  | Prober
  | Local
  deriving DecidableEq, Repr

/-- The 6-bit value of a base64 alphabet character. -/
def b64val (c : Char) : Option Nat :=
  if 'A' ≤ c ∧ c ≤ 'Z' then some (c.toNat - 65)
  else if 'a' ≤ c ∧ c ≤ 'z' then some (c.toNat - 71)
  else if '0' ≤ c ∧ c ≤ '9' then some (c.toNat - 48 + 52)
  else if c = '+' then some 62
  else if c = '/' then some 63
  else none

/-- Pack a list of 6-bit values into 8-bit bytes (big-endian bit order). -/
def b64pack : List Nat → List Nat
  | a :: b :: c :: d :: rest =>
    (a * 4 + b / 16) :: ((b % 16) * 16 + c / 4) :: ((c % 4) * 64 + d) :: b64pack rest
  | [a, b] => [a * 4 + b / 16]
  | [a, b, c] => [a * 4 + b / 16, (b % 16) * 16 + c / 4]
  | _ => []

/-- Modelled from Python's `base64.b64decode` (standard library, not repository
code): characters outside the base64 alphabet — including the `=` padding — are
discarded, and the remaining 6-bit groups are packed into bytes. -/
def b64decode (s : String) : List Nat := b64pack (s.data.filterMap b64val)

/-! ## Channel traces of the methods

Each method's observable effects are the lines it sends on the shared channel,
the response lines it reads, and (for the local snapshot) the file it writes.
The trace functions below transcribe, in order, exactly the
`self.comm.send(...)`, `self.comm.read_line()` and `open(file,"wb").write(...)`
operations the Python method bodies perform. -/

inductive ChanEvent where
  | send (cmd : String)
  | readLine
  | writeFile (path : String) (data : List Nat)
  deriving DecidableEq, Repr

/-- Number of command lines a trace sends. -/
def sendCount (t : List ChanEvent) : Nat :=
  (t.filter fun e => match e with | .send _ => true | _ => false).length

/-- Number of response lines a trace reads. -/
def readCount (t : List ChanEvent) : Nat :=
  (t.filter fun e => match e with | .readLine => true | _ => false).length

/-- The command line `align_wafer` sends: the bare command for the default
`AlignOnly` mode (backwards compatibility with pre-25.1 firmware), otherwise
the command followed by the mode's wire string. -/
def align_wafer_cmd (mode : AutoAlignCmd) : String :=
  if mode = AutoAlignCmd.AlignOnly then "vis:align_wafer"
  else "vis:align_wafer " ++ mode.to_string

/-- Channel trace of `align_wafer`: one send, one read. -/
def align_wafer_trace (mode : AutoAlignCmd) : List ChanEvent :=
  [.send (align_wafer_cmd mode), .readLine]

/-- Channel trace of `switch_all_lights`: the method body is a single
`self.comm.send(f"vis:switch_all_lights {stat}")` with no `read_line`. -/
def switch_all_lights_trace (stat : Bool) : List ChanEvent :=
  [.send ("vis:switch_all_lights " ++ pyBoolStr stat)]

/-- Channel trace of `switch_camera`: the method body is a single
`self.comm.send(f"vis:switch_camera {camera.to_string()}")` with no
`read_line`. -/
def switch_camera_trace (camera : CameraMountPoint) : List ChanEvent :=
  [.send ("vis:switch_camera " ++ camera.to_string)]

/-- Channel trace of `snap_image`, given the payload of the response that a
read would return: the `Local` branch sends the `**download**` form, reads the
response and writes the base64-decoded payload to `file`; every other location
sends the file name as argument and only reads the response. -/
def snap_image_trace (file : String) (what : SnapshotType)
    (location : SnapshotLocation) (respMsg : String) : List ChanEvent :=
  if location = SnapshotLocation.Local then
    [.send ("vis:snap_image **download**, " ++ what.to_string), .readLine,
     .writeFile file (b64decode respMsg)]
  else
    [.send ("vis:snap_image " ++ file ++ ", " ++ what.to_string), .readLine]

/-! ## Response processing of the methods -/

/-- The parsing loop of `detect_probetips`, transcribed from the source: `cid`
is initialised to `0` once, before the loop, and is only reassigned when a
record has at least 6 columns — so its value persists into later records. Each
record is stripped, split on single spaces, its first five columns converted by
`float`, and the 6-element row appended in order. -/
def detectLoop : List String → ℚ → Except PyError (List (List ℚ))
  | [], _ => .ok []
  | strTip :: rest, cid => do
    let cols := pySplit ' ' (pyStrip strTip)
    let x ← pyFloat (← pyIndex cols 0)
    let y ← pyFloat (← pyIndex cols 1)
    let w ← pyFloat (← pyIndex cols 2)
    let h ← pyFloat (← pyIndex cols 3)
    let q ← pyFloat (← pyIndex cols 4)
    let cid ← if cols.length ≥ 6 then pyFloat (← pyIndex cols 5) else pure cid
    let tips ← detectLoop rest cid
    return [x, y, w, h, q, cid] :: tips

/-- Response processing of `detect_probetips`: split the message on commas and
run the parsing loop with `cid` initially `0`. -/
def detect_probetips_parse (msg : String) : Except PyError (List (List ℚ)) :=
  detectLoop (pySplit ',' msg) 0

/-- `detect_probetips` from the response on: `Response.check_resp`, then the
parsing loop. -/
def detect_probetips_run (r : Response) : Except PyError (List (List ℚ)) := do
  let resp ← check_resp r
  detect_probetips_parse resp.msg

/-- Response processing of `align_die`: split the message on commas and convert
the first three fields with `float`. -/
def align_die_parse (msg : String) : Except PyError (ℚ × ℚ × ℚ) := do
  let tok := pySplit ',' msg
  let x ← pyFloat (← pyIndex tok 0)
  let y ← pyFloat (← pyIndex tok 1)
  let z ← pyFloat (← pyIndex tok 2)
  return (x, y, z)

/-- `align_die` from the response on: `Response.check_resp`, then field
parsing. -/
def align_die_run (r : Response) : Except PyError (ℚ × ℚ × ℚ) := do
  let resp ← check_resp r
  align_die_parse resp.msg

/-- The numeric value of the `i`-th comma-separated field of `msg`, when it
exists and parses as a float. -/
def floatField? (msg : String) (i : Nat) : Option ℚ :=
  ((pySplit ',' msg)[i]?).bind pyFloat?

/-- Response processing of `has_camera`: `resp.message().upper() == "1"`. -/
def has_camera_res (msg : String) : Bool := pyUpper msg == "1"

/-- `has_camera` from the response on. -/
def has_camera_run (r : Response) : Except PyError Bool := do
  let resp ← check_resp r
  return has_camera_res resp.msg

/-- Response processing of `get_light_status`:
`resp.message().strip().lower() == "1"`. -/
def get_light_status_res (msg : String) : Bool := pyLower (pyStrip msg) == "1"

/-- `get_light_status` from the response on. -/
def get_light_status_run (r : Response) : Except PyError Bool := do
  let resp ← check_resp r
  return get_light_status_res resp.msg

/-- `start_execute_compensation` from the response on: `Response.check_resp`,
then the method's own explicit `if not resp.ok(): raise ProberException(...)`
check, then `return resp`. -/
def start_execute_compensation_run (r : Response) : Except PyError Response := do
  let resp ← check_resp r
  if !resp.ok then .error (.proberException resp.msg)
  else return resp

/-! ## Shared helper lemmas about the methods -/

theorem align_die_parse_of_fields {msg : String} {x y z : ℚ}
    (h0 : floatField? msg 0 = some x) (h1 : floatField? msg 1 = some y)
    (h2 : floatField? msg 2 = some z) :
    align_die_parse msg = .ok (x, y, z) := by
  obtain ⟨t0, hg0, hp0⟩ := Option.bind_eq_some.mp h0
  obtain ⟨t1, hg1, hp1⟩ := Option.bind_eq_some.mp h1
  obtain ⟨t2, hg2, hp2⟩ := Option.bind_eq_some.mp h2
  simp [align_die_parse, pyIndex, hg0, hg1, hg2, pyFloat, hp0, hp1, hp2,
    Except.instMonad, Except.bind, Except.map, Except.pure]

theorem align_die_parse_error_of_missing {msg : String}
    (h : floatField? msg 0 = none ∨ floatField? msg 1 = none ∨ floatField? msg 2 = none) :
    ∃ e, align_die_parse msg = .error e := by
  rcases hg0 : (pySplit ',' msg)[0]? with _ | t0
  · exact ⟨.indexError, by simp [align_die_parse, pyIndex, hg0,
      Except.instMonad, Except.bind, Except.map, Except.pure]⟩
  rcases hp0 : pyFloat? t0 with _ | x
  · exact ⟨.valueError t0, by simp [align_die_parse, pyIndex, hg0, pyFloat, hp0,
      Except.instMonad, Except.bind, Except.map, Except.pure]⟩
  rcases hg1 : (pySplit ',' msg)[1]? with _ | t1
  · exact ⟨.indexError, by simp [align_die_parse, pyIndex, hg0, hg1, pyFloat, hp0,
      Except.instMonad, Except.bind, Except.map, Except.pure]⟩
  rcases hp1 : pyFloat? t1 with _ | y
  · exact ⟨.valueError t1, by simp [align_die_parse, pyIndex, hg0, hg1, pyFloat, hp0, hp1,
      Except.instMonad, Except.bind, Except.map, Except.pure]⟩
  rcases hg2 : (pySplit ',' msg)[2]? with _ | t2
  · exact ⟨.indexError, by simp [align_die_parse, pyIndex, hg0, hg1, hg2, pyFloat, hp0, hp1,
      Except.instMonad, Except.bind, Except.map, Except.pure]⟩
  rcases hp2 : pyFloat? t2 with _ | z
  · exact ⟨.valueError t2, by simp [align_die_parse, pyIndex, hg0, hg1, hg2, pyFloat,
      hp0, hp1, hp2, Except.instMonad, Except.bind, Except.map, Except.pure]⟩
  exfalso
  rcases h with h | h | h
  · simp [floatField?, hg0, hp0] at h
  · simp [floatField?, hg1, hp1] at h
  · simp [floatField?, hg2, hp2] at h

theorem pyStrip_eq_self_of_no_space {s : String}
    (h : ∀ c ∈ s.data, isPySpace c = false) : pyStrip s = s := by
  show (⟨stripList s.data⟩ : String) = s
  rw [stripList_eq_self_of_all h]

/-! ## The claims -/

/-- C1: the claim says a tip record with exactly 5 whitespace-separated fields
always yields class id `0.0` regardless of preceding records, and a record with
a 6th field yields that field's value. The code initialises `cid` once, outside
the loop, so a 5-field record *inherits the class id of the most recent
preceding 6-field record*: on the response `"1 2 3 4 5 7,10 20 5 5 0.9"` the
trailing 5-field record gets class id `7`, not `0`. The standalone examples of
the claim do hold. -/
theorem C1_detect_probetips_class_id :
    detect_probetips_parse "10 20 5 5 0.9" = .ok [[10, 20, 5, 5, mkRat 9 10, 0]] ∧
    detect_probetips_parse "10 20 5 5 0.9 2" = .ok [[10, 20, 5, 5, mkRat 9 10, 2]] ∧
    detect_probetips_parse "1 2 3 4 5 7,10 20 5 5 0.9" =
      .ok [[1, 2, 3, 4, 5, 7], [10, 20, 5, 5, mkRat 9 10, 7]] ∧
    detect_probetips_parse "1 2 3 4 5 7,10 20 5 5 0.9" ≠
      .ok [[1, 2, 3, 4, 5, 7], [10, 20, 5, 5, mkRat 9 10, 0]] := by
  refine ⟨by decide, by decide, by decide, by decide⟩

/-- C2 counterexample: the claim says a success-status response with an empty
payload makes `detect_probetips` return the empty list without raising. In
Python `"".split(",")` is `[""]`, not `[]`, so the loop body runs once and
`float("")` raises; the call never returns the empty list. -/
theorem C2_empty_payload_not_empty_list :
    detect_probetips_run ⟨true, ""⟩ ≠ .ok [] := by decide

/-- C2 (amended): on a success-status response with an empty payload,
`detect_probetips` raises `ValueError` from `float("")` applied to the single
empty record produced by `"".split(",")`. -/
theorem C2_empty_payload_raises_valueError :
    detect_probetips_run ⟨true, ""⟩ = .error (.valueError "") := by decide

/-- C3 counterexample: the claim says `switch_all_lights` and `switch_camera`
each read one response line per call; their bodies perform a single `send` and
never call `read_line`, so each call reads zero response lines. -/
theorem C3_switch_methods_counterexample :
    readCount (switch_all_lights_trace true) = 0 ∧
    ¬ readCount (switch_all_lights_trace true) = 1 ∧
    readCount (switch_camera_trace CameraMountPoint.Scope) = 0 := by
  refine ⟨rfl, by decide, rfl⟩

/-- C3 (amended): one invocation performs exactly one send followed by exactly
one read for the representative methods (`align_wafer`, and `snap_image` in
both modes — the local-snapshot case adds a file write, not a second line
exchange), while `switch_all_lights` and `switch_camera` perform exactly one
send and zero reads. -/
theorem C3_trace_shape (mode : AutoAlignCmd) (stat : Bool) (camera : CameraMountPoint)
    (file msg : String) (what : SnapshotType) :
    sendCount (align_wafer_trace mode) = 1 ∧
    readCount (align_wafer_trace mode) = 1 ∧
    sendCount (snap_image_trace file what SnapshotLocation.Local msg) = 1 ∧
    readCount (snap_image_trace file what SnapshotLocation.Local msg) = 1 ∧
    sendCount (snap_image_trace file what SnapshotLocation.Prober msg) = 1 ∧
    readCount (snap_image_trace file what SnapshotLocation.Prober msg) = 1 ∧
    switch_all_lights_trace stat = [.send ("vis:switch_all_lights " ++ pyBoolStr stat)] ∧
    sendCount (switch_all_lights_trace stat) = 1 ∧
    readCount (switch_all_lights_trace stat) = 0 ∧
    switch_camera_trace camera = [.send ("vis:switch_camera " ++ camera.to_string)] ∧
    sendCount (switch_camera_trace camera) = 1 ∧
    readCount (switch_camera_trace camera) = 0 :=
  ⟨rfl, rfl, rfl, rfl, rfl, rfl, rfl, rfl, rfl, rfl, rfl, rfl⟩

/-- C4: for a single-token success payload (nonempty, no whitespace), both
`has_camera` and `get_light_status` return `true` exactly when the token is
`"1"` (the comparison is case-normalised, which is the identity on `"1"`), and
`false` for every other single token. -/
theorem C4_bool_ops_single_token (s : String)
    (h : s ≠ "" ∧ ∀ c ∈ s.data, isPySpace c = false) :
    ((has_camera_res s = true) ↔ s = "1") ∧
    ((get_light_status_res s = true) ↔ s = "1") := by
  have hstrip : pyStrip s = s := pyStrip_eq_self_of_no_space h.2
  constructor
  · simp [has_camera_res, pyUpper_eq_one_iff]
  · simp [get_light_status_res, hstrip, pyLower_eq_one_iff]

/-- C4 witness. -/
theorem C4_bool_ops_single_token_witness :
    has_camera_res "1" = true ∧ get_light_status_res "0" = false := by
  constructor
  · exact (C4_bool_ops_single_token "1" ⟨by decide, by decide⟩).1.mpr rfl
  · have h := (C4_bool_ops_single_token "0" ⟨by decide, by decide⟩).2
    cases hb : get_light_status_res "0" with
    | false => rfl
    | true => exact absurd (h.mp hb) (by decide)

/-- C5: `align_wafer` with the default `AlignOnly` mode sends the bare command
`"vis:align_wafer"`; with any other mode it sends the command followed by a
space and the mode's wire string. -/
theorem C5_align_wafer_command :
    align_wafer_cmd AutoAlignCmd.AlignOnly = "vis:align_wafer" ∧
    ∀ mode : AutoAlignCmd, mode ≠ AutoAlignCmd.AlignOnly →
      align_wafer_cmd mode = "vis:align_wafer " ++ mode.to_string := by
  refine ⟨rfl, fun mode h => ?_⟩
  simp [align_wafer_cmd, h]

/-- C5 witness. -/
theorem C5_align_wafer_command_witness :
    align_wafer_cmd AutoAlignCmd.TwoPoint =
      "vis:align_wafer " ++ AutoAlignCmd.TwoPoint.to_string :=
  C5_align_wafer_command.2 AutoAlignCmd.TwoPoint (by decide)

/-- C6: `snap_image` with the `Local` storage location sends the
`**download**` command form, reads the response, and writes the base64-decoded
payload verbatim to the given path; with any other location it sends the file
name as argument, reads the response, and writes no local file. -/
theorem C6_snap_image_modes (file : String) (what : SnapshotType) (msg : String) :
    snap_image_trace file what SnapshotLocation.Local msg =
      [.send ("vis:snap_image **download**, " ++ what.to_string), .readLine,
       .writeFile file (b64decode msg)] ∧
    ∀ loc : SnapshotLocation, loc ≠ SnapshotLocation.Local →
      snap_image_trace file what loc msg =
        [.send ("vis:snap_image " ++ file ++ ", " ++ what.to_string), .readLine] ∧
      ∀ p d, ChanEvent.writeFile p d ∉ snap_image_trace file what loc msg := by
  refine ⟨rfl, fun loc h => ⟨by simp [snap_image_trace, h], fun p d => ?_⟩⟩
  simp [snap_image_trace, h]

/-- C6 witness. -/
theorem C6_snap_image_modes_witness :
    snap_image_trace "img.jpg" SnapshotType.CameraRaw SnapshotLocation.Prober "QUJD" =
      [.send ("vis:snap_image " ++ "img.jpg" ++ ", " ++ SnapshotType.CameraRaw.to_string),
       .readLine] :=
  ((C6_snap_image_modes "img.jpg" SnapshotType.CameraRaw "QUJD").2
    SnapshotLocation.Prober (by decide)).1

/-- C7: `align_die` returns the first three comma-separated fields of a
success payload as floats whenever all three parse, and raises (an `IndexError`
or `ValueError`) whenever the payload does not provide three numeric fields. -/
theorem C7_align_die_parse (msg : String) :
    (∀ x y z : ℚ, floatField? msg 0 = some x → floatField? msg 1 = some y →
      floatField? msg 2 = some z → align_die_parse msg = .ok (x, y, z)) ∧
    ((floatField? msg 0 = none ∨ floatField? msg 1 = none ∨ floatField? msg 2 = none) →
      ∃ e, align_die_parse msg = .error e) :=
  ⟨fun _ _ _ h0 h1 h2 => align_die_parse_of_fields h0 h1 h2,
   align_die_parse_error_of_missing⟩

/-- C7 witness: the payload `"1.0,2.0,3.0"` yields `(1.0, 2.0, 3.0)`. -/
theorem C7_align_die_parse_witness : align_die_parse "1.0,2.0,3.0" = .ok (1, 2, 3) :=
  (C7_align_die_parse "1.0,2.0,3.0").1 1 2 3 (by decide) (by decide) (by decide)

/-- C8: `start_execute_compensation` raises the domain exception on every
failure-status response and returns the response unchanged on every
success-status response; its body contains its own explicit failure check on
top of `Response.check_resp` (visible in `start_execute_compensation_run`,
which tests `resp.ok` again after the shared check). -/
theorem C8_start_execute_compensation (r : Response) :
    (r.ok = false →
      start_execute_compensation_run r = .error (.proberException r.msg)) ∧
    (r.ok = true → start_execute_compensation_run r = .ok r) := by
  constructor <;> intro h <;>
    simp [start_execute_compensation_run, check_resp, h,
      Except.instMonad, Except.bind, Except.map, Except.pure]

/-- C8 witness. -/
theorem C8_start_execute_compensation_witness :
    start_execute_compensation_run ⟨false, "boom"⟩ = .error (.proberException "boom") ∧
    start_execute_compensation_run ⟨true, "ok"⟩ = .ok ⟨true, "ok"⟩ :=
  ⟨(C8_start_execute_compensation ⟨false, "boom"⟩).1 rfl,
   (C8_start_execute_compensation ⟨true, "ok"⟩).2 rfl⟩

/-- C9: for a method checked through the shared `Response.check_resp`
primitive (`align_die` is the representative the claim cites), every
failure-status response raises the domain exception carrying the instrument's
message text, and every success-status response whose payload is well-formed
for the method (three parsable comma-separated fields) returns normally
without raising. -/
theorem C9_response_check_policy (r : Response) :
    (r.ok = false →
      check_resp r = .error (.proberException r.msg) ∧
      align_die_run r = .error (.proberException r.msg)) ∧
    (∀ x y z : ℚ, r.ok = true → floatField? r.msg 0 = some x →
      floatField? r.msg 1 = some y → floatField? r.msg 2 = some z →
      align_die_run r = .ok (x, y, z)) := by
  constructor
  · intro h
    have hc : check_resp r = .error (.proberException r.msg) := by
      simp [check_resp, h]
    exact ⟨hc, by simp [align_die_run, hc,
      Except.instMonad, Except.bind, Except.map, Except.pure]⟩
  · intro x y z h h0 h1 h2
    have hc : check_resp r = .ok r := by simp [check_resp, h]
    simp [align_die_run, hc, Except.instMonad, Except.bind, Except.map, Except.pure,
      align_die_parse_of_fields h0 h1 h2]

/-- C9 witness. -/
theorem C9_response_check_policy_witness :
    align_die_run ⟨false, "no wafer"⟩ = .error (.proberException "no wafer") ∧
    align_die_run ⟨true, "1.0,2.0,3.0"⟩ = .ok (1, 2, 3) :=
  ⟨((C9_response_check_policy ⟨false, "no wafer"⟩).1 rfl).2,
   (C9_response_check_policy ⟨true, "1.0,2.0,3.0"⟩).2 1 2 3 rfl
     (by decide) (by decide) (by decide)⟩

/-- C10: on a success payload consisting of the token `"1"` surrounded by
whitespace on at least one side, `get_light_status` (which strips before
comparing) returns `true` while `has_camera` (which does not strip) returns
`false`; on any payload without surrounding whitespace the two operations
agree. -/
theorem C10_bool_ops_whitespace :
    (∀ ws1 ws2 : String, (∀ c ∈ ws1.data, isPySpace c = true) →
      (∀ c ∈ ws2.data, isPySpace c = true) → (ws1.data ≠ [] ∨ ws2.data ≠ []) →
      get_light_status_res (ws1 ++ "1" ++ ws2) = true ∧
      has_camera_res (ws1 ++ "1" ++ ws2) = false) ∧
    (∀ s : String, pyStrip s = s → has_camera_res s = get_light_status_res s) := by
  constructor
  · intro ws1 ws2 h1 h2 hne
    have hdata : (ws1 ++ "1" ++ ws2).data = ws1.data ++ '1' :: ws2.data := by
      simp [String.data_append]
    constructor
    · have hstrip : pyStrip (ws1 ++ "1" ++ ws2) = "1" := by
        show (⟨stripList (ws1 ++ "1" ++ ws2).data⟩ : String) = "1"
        rw [hdata, stripList_surrounded h1 h2]
      rw [get_light_status_res, hstrip]
      rfl
    · have hne1 : pyUpper (ws1 ++ "1" ++ ws2) ≠ "1" := by
        rw [Ne, pyUpper_eq_one_iff]
        intro hcontr
        have hd := congrArg String.data hcontr
        rw [hdata, show ("1" : String).data = ['1'] from rfl] at hd
        have hlen : ws1.data.length + ws2.data.length + 1 = 1 := by
          have h3 := congrArg List.length hd
          simp only [List.length_append, List.length_cons, List.length_nil] at h3
          omega
        rcases hne with h | h
        · exact h (List.length_eq_zero.mp (by omega))
        · exact h (List.length_eq_zero.mp (by omega))
      simp [has_camera_res, hne1]
  · intro s hstrip
    by_cases hs : s = "1"
    · subst hs; rfl
    · have h1 : pyUpper s ≠ "1" := fun hc => hs ((pyUpper_eq_one_iff s).mp hc)
      have h2 : pyLower (pyStrip s) ≠ "1" := by
        rw [hstrip]; exact fun hc => hs ((pyLower_eq_one_iff s).mp hc)
      simp [has_camera_res, get_light_status_res, h1, h2]

/-- C10 witness. -/
theorem C10_bool_ops_whitespace_witness :
    get_light_status_res (" " ++ "1" ++ "") = true ∧
    has_camera_res (" " ++ "1" ++ "") = false ∧
    has_camera_res "0" = get_light_status_res "0" := by
  refine ⟨(C10_bool_ops_whitespace.1 " " "" (by decide) (by decide)
      (Or.inl (by decide))).1,
    (C10_bool_ops_whitespace.1 " " "" (by decide) (by decide)
      (Or.inl (by decide))).2,
    C10_bool_ops_whitespace.2 "0" (by decide)⟩

end SentioVis
